import Mathlib

/-!
# Verification of the frame-orchestration core (src/renderer/RenderingPipeline.js)

This development shallowly embeds the `RenderingPipeline` class of the
ray-tracing renderer.  JavaScript numbers are modelled as exact rationals
(`JNum := ℚ`); the JavaScript `null` of the clock fields is modelled with
`Option`.  The out-of-scope GPU collaborators (tile scheduler, adaptive
preview sizer, the four draw passes, `Math.random`) are opaque at their
interface boundary: the values they would return are taken as per-call
oracle inputs (`DrawInput`), and every call the orchestrator makes into
them is recorded in an event trace (`Event`), so that theorems can speak
about which passes were invoked, in which order and with which arguments.
Framebuffers are identified by allocation ids (`Buffer := Option Nat`,
`none` being the JavaScript `null` that the fields hold before
`initFrameBuffers` runs); the orchestrator only ever passes these
references around, never inspects them, so ids are a faithful model.
-/

/-- JavaScript numbers, modelled as exact rationals. -/
abbrev JNum := ℚ

/-- A framebuffer (or its distinguished color texture): `none` is the
JavaScript `null` the pipeline fields hold before allocation, `some id`
an allocated framebuffer.  `initFrameBuffers` hands out fresh ids. -/
abbrev Buffer := Option Nat

/-- Camera snapshot: the fields `areCamerasEqual` inspects on a three.js
`PerspectiveCamera` (`matrixWorld.elements` is a flat array of numbers). -/
structure Camera where
  matrixWorld : List JNum
  fov : JNum
  aspect : JNum
deriving DecidableEq, Repr

/-- Modelled from the spec: `numberArraysEqual` lives in the repository's
`util` module, whose source is not part of this corpus; the spec says two
snapshots are equal iff their transform matrices are numerically equal, so
this is element-wise numeric equality of the two arrays (list equality:
same length and equal entries). -/
def numberArraysEqual (a b : List JNum) : Bool :=
  a == b

/-- Modelled from the spec: `clamp` lives in the repository's `util`
module, whose source is not part of this corpus; the spec writes
`clamp(v, 0, 1)` for bounding a value to an interval, so this is the
standard `min(max(x, lo), hi)`. -/
def clamp (x lo hi : JNum) : JNum :=
  min (max x lo) hi

/-- RenderingPipeline.js line 17: cameras are equal when their world
matrices, aspect and fov agree. -/
def areCamerasEqual (cam1 cam2 : Camera) : Bool :=
  numberArraysEqual cam1.matrixWorld cam2.matrixWorld &&
    cam1.aspect == cam2.aspect &&
    cam1.fov == cam2.fov

/-- Constructor constant `this.maxReprojectedSamples = 20`. -/
def maxReprojectedSamples : Nat := 20

/-- Constructor constant `this.numUniformSamples = 4`. -/
def numUniformSamples : Nat := 4

/-- Constructor constant `this.strataCount = 6`. -/
def strataCount : Nat := 6

/-- Constructor constant `this.previewFramesBeforeBenchmark = 2`. -/
def previewFramesBeforeBenchmark : Nat := 2

/-- The readable state of the adaptive preview sizer (`RenderSize`), an
out-of-scope collaborator: working width/height and the 2D scale factor. -/
structure RenderSize where
  width : JNum
  height : JNum
  scale : JNum × JNum
deriving DecidableEq, Repr

/-- The record returned by `tileRender.nextTile`: a tile rectangle plus
the sweep-boundary flags. -/
structure TileInfo where
  x : JNum
  y : JNum
  tileWidth : JNum
  tileHeight : JNum
  isFirstTile : Bool
  isLastTile : Bool
deriving DecidableEq, Repr

/-- Oracle inputs consumed by one `draw`/`drawFull` call: what the
out-of-scope collaborators would answer this frame.  `tile` is what
`tileRender.nextTile` would return, `randomX`/`randomY` the two
`Math.random()` values of `updateSeed`, and `preview` the readable state
of `previewSize` at the moment the orchestrator reads it (after any
`adjustSize` call of this frame). -/
structure DrawInput where
  tile : TileInfo
  randomX : JNum
  randomY : JNum
  preview : RenderSize
deriving DecidableEq, Repr

/-- One call the orchestrator makes into a collaborator (GPU pass, tile
scheduler or preview sizer).  The trace of a frame is a `List Event`. -/
inductive Event where
  | tileSetSize (w h : JNum)
  | previewSetSize (w h : JNum)
  | tileReset
  | nextTile (elapsed : Option JNum)
  | adjustSize (elapsed : Option JNum)
  | raySetSize (w h : JNum)
  | setJitter (x y : JNum)
  | setStrataCount (n : Nat)
  | nextSeed
  | setCamera (cam : Camera)
  | setPreviousCamera (cam : Camera)
  | clear (buffer : Buffer)
  | gBufferDraw (target : Buffer)
  | bindTextures
  | rayTraceDraw (target : Buffer) (w h : JNum) (additive : Bool)
  | reprojectDraw (target : Buffer) (blendAmount : JNum)
      (light : Buffer) (previousLight : Buffer)
  | toneMapDraw (light : Buffer)
  | sampleRendered (sampleIndex : Nat) (elapsed : Option JNum)
deriving DecidableEq, Repr

/-- The mutable state of a `RenderingPipeline` instance (the fields the
constructor initialises, minus the opaque collaborator objects). -/
structure Pipeline where
  ready : Bool
  frameTime : Option JNum
  elapsedFrameTime : Option JNum
  sampleTime : Option JNum
  sampleCount : Nat
  numPreviewsRendered : Nat
  firstFrame : Bool
  lastCamera : Camera
  screenWidth : JNum
  screenHeight : JNum
  fullscreenScale : JNum × JNum
  lastToneMappedScale : JNum × JNum
  hdrBuffer : Buffer
  hdrBackBuffer : Buffer
  reprojectBuffer : Buffer
  reprojectBackBuffer : Buffer
  gBuffer : Buffer
  gBufferBack : Buffer
  lastToneMappedTexture : Buffer
  nextBufferId : Nat
deriving DecidableEq, Repr

/-- The sentinel `lastCamera` built in the constructor: a default
three.js `PerspectiveCamera` (fov 50, aspect 1) moved to position
(1,1,1) with its world matrix updated (column-major elements). -/
def defaultLastCamera : Camera :=
  { matrixWorld := [1, 0, 0, 0, 0, 1, 0, 0, 0, 0, 1, 0, 1, 1, 1, 1]
    fov := 50
    aspect := 1 }

/-- The state right after the constructor runs (before the asynchronous
noise-image load completes, so `ready := false`; all buffer fields and
the clock fields are the JavaScript `null`). -/
def initialPipeline : Pipeline :=
  { ready := false
    frameTime := none
    elapsedFrameTime := none
    sampleTime := none
    sampleCount := 0
    numPreviewsRendered := 0
    firstFrame := true
    lastCamera := defaultLastCamera
    screenWidth := 0
    screenHeight := 0
    fullscreenScale := (1, 1)
    lastToneMappedScale := (1, 1)
    hdrBuffer := none
    hdrBackBuffer := none
    reprojectBuffer := none
    reprojectBackBuffer := none
    gBuffer := none
    gBufferBack := none
    lastToneMappedTexture := none
    nextBufferId := 0 }

/-- `swapReprojectBuffer` (line 141). -/
def Pipeline.swapReprojectBuffer (s : Pipeline) : Pipeline :=
  { s with reprojectBuffer := s.reprojectBackBuffer
           reprojectBackBuffer := s.reprojectBuffer }

/-- `swapGBuffer` (line 147). -/
def Pipeline.swapGBuffer (s : Pipeline) : Pipeline :=
  { s with gBuffer := s.gBufferBack
           gBufferBack := s.gBuffer }

/-- `swapHdrBuffer` (line 153). -/
def Pipeline.swapHdrBuffer (s : Pipeline) : Pipeline :=
  { s with hdrBuffer := s.hdrBackBuffer
           hdrBackBuffer := s.hdrBuffer }

/-- `swapBuffers` (line 161): swap all three pairs. -/
def Pipeline.swapBuffers (s : Pipeline) : Pipeline :=
  (((s.swapReprojectBuffer).swapGBuffer).swapHdrBuffer)

/-- `initFrameBuffers` (line 103): allocate fresh framebuffers for all
three pairs and point `lastToneMappedTexture` at the new accumulation
buffer's light texture.  Allocation order follows the source: hdr,
hdrBack, reproject, reprojectBack, gBuffer, gBufferBack. -/
def Pipeline.initFrameBuffers (s : Pipeline) : Pipeline :=
  let n := s.nextBufferId
  { s with hdrBuffer := some n
           hdrBackBuffer := some (n + 1)
           reprojectBuffer := some (n + 2)
           reprojectBackBuffer := some (n + 3)
           gBuffer := some (n + 4)
           gBufferBack := some (n + 5)
           lastToneMappedTexture := some n
           nextBufferId := n + 6 }

/-- `setSize` (line 167): store the screen size, resize the tile
scheduler and the preview sizer, reallocate every framebuffer pair and
raise the first-frame flag. -/
def Pipeline.setSize (s : Pipeline) (w h : JNum) : Pipeline × List Event :=
  let s1 := { s with screenWidth := w, screenHeight := h }
  let s2 := s1.initFrameBuffers
  ({ s2 with firstFrame := true },
   [Event.tileSetSize w h, Event.previewSetSize w h])

/-- `time` (line 177): `elapsedFrameTime = newTime - frameTime` with the
JavaScript coercion of `null` to `0`, then store the new timestamp. -/
def Pipeline.time (s : Pipeline) (newTime : JNum) : Pipeline :=
  { s with elapsedFrameTime := some (newTime - s.frameTime.getD 0)
           frameTime := some newTime }

/-- The noise configuration `updateSeed` sends to the ray-trace pass as
a function of the current sample count (lines 192-198): 1 stratum at
sample count 0, `strataCount` strata at sample count
`numUniformSamples`, otherwise the next pseudo-random seed. -/
def seedNoiseEvent (sampleCount : Nat) : Event :=
  if sampleCount = 0 then
    Event.setStrataCount 1
  else if sampleCount = numUniformSamples then
    Event.setStrataCount strataCount
  else
    Event.nextSeed

/-- `updateSeed` (line 183): resize the ray-trace pass, push the jitter
offset (zero when `useJitter` is off, otherwise derived from the two
`Math.random()` oracle values) to the three passes, then configure the
noise per `seedNoiseEvent`.  The pipeline state is not modified, so
only the event list is returned. -/
def Pipeline.updateSeed (s : Pipeline) (width height : JNum) (useJitter : Bool)
    (randomX randomY : JNum) : List Event :=
  let jitterX := if useJitter then (randomX - 1/2) / width else 0
  let jitterY := if useJitter then (randomY - 1/2) / height else 0
  [Event.raySetSize width height, Event.setJitter jitterX jitterY,
   seedNoiseEvent s.sampleCount]

/-- `renderGBuffer` (line 242): bind, clear and draw the geometry buffer
(its internal clear is part of the pass, not the `clearBuffer` helper),
then hand its attachments to the ray-trace pass. -/
def Pipeline.renderGBufferEvents (s : Pipeline) : List Event :=
  [Event.gBufferDraw s.gBuffer]

/-- `toneMapToScreen` (line 230): tone-map the given light texture to
the display and remember it (and its scale) as the last tone-mapped
output. -/
def Pipeline.toneMapToScreen (s : Pipeline) (lightTexture : Buffer)
    (lightScale : JNum × JNum) : Pipeline × List Event :=
  ({ s with lastToneMappedTexture := lightTexture
            lastToneMappedScale := lightScale },
   [Event.toneMapDraw lightTexture])

/-- `drawPreview` (line 276): swap if a previous accumulation existed,
benchmark-adjust the preview size after the warm-up, seed without
jitter, render the G-buffer and one preview-resolution light sample into
the accumulation buffer, reproject with blend amount 1 against the last
tone-mapped output, tone-map, and swap again. -/
def Pipeline.drawPreview (s : Pipeline) (inp : DrawInput) : Pipeline × List Event :=
  let s1 := if 0 < s.sampleCount then s.swapBuffers else s
  let adjustEvents :=
    if previewFramesBeforeBenchmark ≤ s.numPreviewsRendered then
      [Event.adjustSize s.elapsedFrameTime]
    else
      []
  let pw := inp.preview.width
  let ph := inp.preview.height
  let seedEvents := s1.updateSeed pw ph false inp.randomX inp.randomY
  let sampleEvents :=
    [Event.bindTextures, Event.rayTraceDraw s1.hdrBuffer pw ph false]
  let reprojectEvents :=
    [Event.reprojectDraw s1.reprojectBuffer 1 s1.hdrBuffer s1.lastToneMappedTexture]
  let toneMapped := s1.toneMapToScreen s1.reprojectBuffer inp.preview.scale
  (toneMapped.1.swapBuffers,
   adjustEvents ++ seedEvents ++ s1.renderGBufferEvents ++ sampleEvents ++
     reprojectEvents ++ toneMapped.2)

/-- The second argument of the sample-rendered callback (line 318):
`this.frameTime - this.sampleTime || NaN`, with the JavaScript coercion
of `null` to `0` in the subtraction and `|| NaN` turning a zero
difference into NaN (`none`). -/
def Pipeline.sampleElapsed (s : Pipeline) : Option JNum :=
  let d := s.frameTime.getD 0 - s.sampleTime.getD 0
  if d = 0 then none else some d

/-- The `isFirstTile` block of `drawTile` (lines 313-325): either
discard the preview remnant (sample count 0: clear the accumulation
buffer and re-point the reprojection pass's previous camera) or emit
the sample-rendered notification and remember the notification time;
then reseed, re-render the G-buffer and re-bind the ray-trace
textures. -/
def Pipeline.drawTileFirstPart (s : Pipeline) (inp : DrawInput) : Pipeline × List Event :=
  if inp.tile.isFirstTile then
    let notified : Pipeline × List Event :=
      if s.sampleCount = 0 then
        (s, [Event.clear s.hdrBuffer, Event.setPreviousCamera s.lastCamera])
      else
        ({ s with sampleTime := s.frameTime },
         [Event.sampleRendered s.sampleCount s.sampleElapsed])
    (notified.1,
     notified.2 ++
       notified.1.updateSeed s.screenWidth s.screenHeight true inp.randomX inp.randomY ++
       notified.1.renderGBufferEvents ++ [Event.bindTextures])
  else
    (s, [])

/-- The `isLastTile` block of `drawTile` (lines 329-353): increment the
sample count, compute the blend amount from the fresh count (clamped,
squared), then either reproject-blend and tone-map the blended result,
or (blend amount decayed to 0) tone-map the raw accumulation buffer
directly. -/
def Pipeline.drawTileLastPart (s1 : Pipeline) (inp : DrawInput) : Pipeline × List Event :=
  if inp.tile.isLastTile then
    let s2 := { s1 with sampleCount := s1.sampleCount + 1 }
    let blendAmount :=
      clamp (1 - (s2.sampleCount : JNum) / (maxReprojectedSamples : JNum)) 0 1
    let blendAmount := blendAmount * blendAmount
    if 0 < blendAmount then
      let toneMapped := s2.toneMapToScreen s2.reprojectBuffer s2.fullscreenScale
      (toneMapped.1,
       Event.reprojectDraw s2.reprojectBuffer blendAmount s2.hdrBuffer
         s2.reprojectBackBuffer :: toneMapped.2)
    else
      let toneMapped := s2.toneMapToScreen s2.hdrBuffer s2.fullscreenScale
      toneMapped
  else
    (s1, [])

/-- `drawTile` (line 310): pull the next tile from the scheduler, run
the first-tile block when the sweep starts, always additively render
the tile's rectangle into the accumulation buffer, and run the
last-tile block when the sweep completes. -/
def Pipeline.drawTile (s : Pipeline) (inp : DrawInput) : Pipeline × List Event :=
  let firstTilePart := s.drawTileFirstPart inp
  let s1 := firstTilePart.1
  let lastTilePart := s1.drawTileLastPart inp
  (lastTilePart.1,
   Event.nextTile s.elapsedFrameTime :: firstTilePart.2 ++
     [Event.rayTraceDraw s1.hdrBuffer s1.screenWidth s1.screenHeight true] ++
     lastTilePart.2)

/-- `draw` (line 356): no-op until ready; on a camera change update the
pass cameras and the snapshot, then either (first frame) just record
state, or render a preview; in both cases reset the tile scheduler and
the sample count.  With an unchanged camera, advance one tile. -/
def Pipeline.draw (s : Pipeline) (camera : Camera) (inp : DrawInput) :
    Pipeline × List Event :=
  if !s.ready then
    (s, [])
  else if !areCamerasEqual camera s.lastCamera then
    let cameraEvents := [Event.setCamera camera, Event.setPreviousCamera s.lastCamera]
    let s1 := { s with lastCamera := camera }
    if s.firstFrame then
      ({ s1 with firstFrame := false, sampleCount := 0 },
       cameraEvents ++ [Event.tileReset])
    else
      let previewed := s1.drawPreview inp
      ({ previewed.1 with
           numPreviewsRendered := previewed.1.numPreviewsRendered + 1
           sampleCount := 0 },
       cameraEvents ++ previewed.2 ++ [Event.tileReset])
  else
    let tiled := s.drawTile inp
    ({ tiled.1 with numPreviewsRendered := 0 }, tiled.2)

/-- `drawFull` (line 381): no-op until ready; swap the G-buffer and
reprojection pairs (never the accumulation pair); reset-and-clear on a
camera change, otherwise count one more sample; update cameras, seed,
re-render the G-buffer, add one full-resolution sample, reproject with
blend amount 1 against the last tone-mapped output, and tone-map. -/
def Pipeline.drawFull (s : Pipeline) (camera : Camera) (inp : DrawInput) :
    Pipeline × List Event :=
  if !s.ready then
    (s, [])
  else
    let s1 := (s.swapGBuffer).swapReprojectBuffer
    let checked : Pipeline × List Event :=
      if !areCamerasEqual camera s1.lastCamera then
        ({ s1 with sampleCount := 0 }, [Event.clear s1.hdrBuffer])
      else
        ({ s1 with sampleCount := s1.sampleCount + 1 }, [])
    let s2 := checked.1
    let cameraEvents := [Event.setCamera camera, Event.setPreviousCamera s2.lastCamera]
    let s3 := { s2 with lastCamera := camera }
    let seedEvents := s3.updateSeed s3.screenWidth s3.screenHeight true
      inp.randomX inp.randomY
    let sampleEvents :=
      [Event.bindTextures,
       Event.rayTraceDraw s3.hdrBuffer s3.screenWidth s3.screenHeight true]
    let reprojectEvents :=
      [Event.reprojectDraw s3.reprojectBuffer 1 s3.hdrBuffer s3.lastToneMappedTexture]
    let toneMapped := s3.toneMapToScreen s3.reprojectBuffer s3.fullscreenScale
    (toneMapped.1,
     checked.2 ++ cameraEvents ++ seedEvents ++ s3.renderGBufferEvents ++
       sampleEvents ++ reprojectEvents ++ toneMapped.2)

/-- `getTotalSamplesRendered` from the factory wrapper (line 437): it
returns `renderingPipeline.sampleCount`. -/
def Pipeline.getTotalSamplesRendered (s : Pipeline) : Nat :=
  s.sampleCount

/-- One call the embedding application can make on the pipeline object
(`noiseLoaded` is the asynchronous `noiseImage.onload` callback that
flips the readiness flag). -/
inductive Cmd where
  | time (t : JNum)
  | draw (camera : Camera) (inp : DrawInput)
  | drawFull (camera : Camera) (inp : DrawInput)
  | setSize (w h : JNum)
  | noiseLoaded
deriving DecidableEq, Repr

/-- Run one application call. -/
def Pipeline.step (s : Pipeline) : Cmd → Pipeline × List Event
  | Cmd.time t => (s.time t, [])
  | Cmd.draw camera inp => s.draw camera inp
  | Cmd.drawFull camera inp => s.drawFull camera inp
  | Cmd.setSize w h => s.setSize w h
  | Cmd.noiseLoaded => ({ s with ready := true }, [])

/-- Run a sequence of application calls, concatenating the traces. -/
def Pipeline.run (s : Pipeline) : List Cmd → Pipeline × List Event
  | [] => (s, [])
  | c :: rest =>
    let stepped := s.step c
    let rest' := stepped.1.run rest
    (rest'.1, stepped.2 ++ rest'.2)

/-- Run a sequence of `draw` calls only (each a camera plus the oracle
input of that frame). -/
def Pipeline.runDraws (s : Pipeline) : List (Camera × DrawInput) → Pipeline
  | [] => s
  | (camera, inp) :: rest => ((s.draw camera inp).1).runDraws rest

/-- Number of sweeps the tile scheduler completes along a sequence of
`draw` calls: a sweep completes on a ready draw whose camera equals the
current snapshot and whose tile is the last of the sweep. -/
def Pipeline.completedSweeps (s : Pipeline) : List (Camera × DrawInput) → Nat
  | [] => 0
  | (camera, inp) :: rest =>
    (if s.ready && areCamerasEqual camera s.lastCamera && inp.tile.isLastTile
     then 1 else 0) +
      ((s.draw camera inp).1).completedSweeps rest

/-- The blend amount the last tile of a sweep computes from the freshly
incremented sample count (lines 332-333 as a function of that count). -/
def blendAmountOf (n : Nat) : JNum :=
  let b := clamp (1 - (n : JNum) / (maxReprojectedSamples : JNum)) 0 1
  b * b

/-- Whether an event is a sample-rendered notification. -/
def isSampleRenderedEvent : Event → Bool
  | Event.sampleRendered _ _ => true
  | _ => false

/-- Number of sample-rendered notifications in a trace. -/
def countSampleRendered (trace : List Event) : Nat :=
  (trace.filter isSampleRenderedEvent).length

/-- The trace `trace` configures the light-transport noise for sample
count `n` before any ray-trace render: some prefix free of ray-trace
draws ends at the noise-configuration event. -/
def seedConfiguredBeforeRender (trace : List Event) (n : Nat) : Prop :=
  ∃ l1 l2, trace = l1 ++ seedNoiseEvent n :: l2 ∧
    ∀ (target : Buffer) (w h : JNum) (additive : Bool),
      Event.rayTraceDraw target w h additive ∉ l1

/-! ## Concrete fixtures used by the witnesses and counterexamples -/

/-- Identity world matrix, column-major, as `matrixWorld.elements`. -/
def idMatrix : List JNum := [1, 0, 0, 0, 0, 1, 0, 0, 0, 0, 1, 0, 0, 0, 0, 1]

/-- A concrete camera snapshot. -/
def camA : Camera := { matrixWorld := idMatrix, fov := 45, aspect := 2 }

/-- A second snapshot differing from `camA` in a single scalar (fov). -/
def camB : Camera := { matrixWorld := idMatrix, fov := 60, aspect := 2 }

/-- A concrete preview-sizer readable state. -/
def previewFixture : RenderSize := { width := 100, height := 80, scale := (1, 1) }

/-- A tile that is a whole sweep by itself. -/
def tileSingle : TileInfo :=
  { x := 0, y := 0, tileWidth := 800, tileHeight := 600
    isFirstTile := true, isLastTile := true }

/-- A tile in the middle of a sweep. -/
def tileMiddle : TileInfo :=
  { x := 100, y := 0, tileWidth := 100, tileHeight := 100
    isFirstTile := false, isLastTile := false }

/-- Oracle input whose tile completes a sweep immediately. -/
def inpSingle : DrawInput :=
  { tile := tileSingle, randomX := 0, randomY := 1, preview := previewFixture }

/-- Oracle input whose tile is in the middle of a sweep. -/
def inpMiddle : DrawInput :=
  { tile := tileMiddle, randomX := 0, randomY := 1, preview := previewFixture }

/-- The pipeline once the noise texture has loaded and the embedding
application has called `setSize(800, 600)`. -/
def sReady : Pipeline := (initialPipeline.run [Cmd.noiseLoaded, Cmd.setSize 800 600]).1

/-- After the very first `draw(camA)`: snapshot stored, nothing rendered. -/
def sStored : Pipeline := (sReady.draw camA inpSingle).1

/-- After one completed single-tile sweep with the camera still `camA`. -/
def sOne : Pipeline := (sStored.draw camA inpSingle).1

/-- After a `setSize` issued once a sweep has already completed: the
first-frame flag is raised again while the stored snapshot is `camA`. -/
def sAfterResize : Pipeline := (sOne.setSize 800 600).1

/-! ## Shared lemmas -/

/-- Unfolding of the camera comparison to propositional equalities. -/
theorem areCamerasEqual_iff (c1 c2 : Camera) :
    areCamerasEqual c1 c2 = true ↔
      (c1.matrixWorld = c2.matrixWorld ∧ c1.fov = c2.fov ∧ c1.aspect = c2.aspect) := by
  simp only [areCamerasEqual, numberArraysEqual, Bool.and_eq_true, beq_iff_eq]
  tauto

/-! ## C2: camera-equality test -/

/-- C2: for snapshots with the usual 16-element world matrices,
`areCamerasEqual` returns true iff every matrix element and the fov and
aspect scalars are pairwise equal; it is reflexive; and changing any
single one of these scalars (to a different value) flips the comparison
to false. -/
theorem areCamerasEqual_spec (c1 c2 : Camera)
    (h1 : c1.matrixWorld.length = 16) (h2 : c2.matrixWorld.length = 16) :
    (areCamerasEqual c1 c2 = true ↔
      ((∀ i : Fin 16, c1.matrixWorld.get (Fin.cast h1.symm i) =
          c2.matrixWorld.get (Fin.cast h2.symm i)) ∧
        c1.fov = c2.fov ∧ c1.aspect = c2.aspect)) ∧
    areCamerasEqual c1 c1 = true ∧
    (∀ v : JNum, v ≠ c1.fov → areCamerasEqual c1 { c1 with fov := v } = false) ∧
    (∀ v : JNum, v ≠ c1.aspect → areCamerasEqual c1 { c1 with aspect := v } = false) ∧
    (∀ (i : Fin 16) (v : JNum),
      v ≠ c1.matrixWorld.get (Fin.cast h1.symm i) →
      areCamerasEqual c1 { c1 with matrixWorld := c1.matrixWorld.set i v } = false) := by
  refine ⟨?_, ?_, ?_, ?_, ?_⟩
  · rw [areCamerasEqual_iff]
    constructor
    · rintro ⟨hm, hf, ha⟩
      refine ⟨fun i => ?_, hf, ha⟩
      simp [List.get_eq_getElem, hm]
    · rintro ⟨hm, hf, ha⟩
      refine ⟨?_, hf, ha⟩
      refine List.ext_get (by rw [h1, h2]) fun n hn1 hn2 => ?_
      have := hm ⟨n, by omega⟩
      simpa [List.get_eq_getElem] using this
  · simp [areCamerasEqual_iff]
  · intro v hv
    rw [Bool.eq_false_iff]
    intro htrue
    rw [areCamerasEqual_iff] at htrue
    exact hv (htrue.2.1.symm)
  · intro v hv
    rw [Bool.eq_false_iff]
    intro htrue
    rw [areCamerasEqual_iff] at htrue
    exact hv (htrue.2.2.symm)
  · intro i v hv
    rw [Bool.eq_false_iff]
    intro htrue
    rw [areCamerasEqual_iff] at htrue
    have hm : c1.matrixWorld = c1.matrixWorld.set (i : Nat) v := htrue.1
    have hi : (i : Nat) < c1.matrixWorld.length := by omega
    have hs : (i : Nat) < (c1.matrixWorld.set (i : Nat) v).length := by
      simpa using hi
    have hcontra : c1.matrixWorld.get ⟨(i : Nat), hi⟩ = v := by
      have h3 := List.getElem_of_eq hm hi
      simpa [List.get_eq_getElem] using h3
    apply hv
    rw [← hcontra]
    simp [List.get_eq_getElem]

/-- Witness for C2 at concrete cameras: `camA` equals itself and a fov
change is detected. -/
theorem areCamerasEqual_spec_witness :
    areCamerasEqual camA camA = true ∧
    areCamerasEqual camA { camA with fov := 60 } = false := by
  constructor
  · exact (areCamerasEqual_spec camA camA (by decide) (by decide)).2.1
  · exact (areCamerasEqual_spec camA camA (by decide) (by decide)).2.2.1 60 (by decide)

/-! ## C7: readiness gating -/

/-- An unready `draw` is an identity with an empty trace. -/
theorem draw_not_ready (s : Pipeline) (camera : Camera) (inp : DrawInput)
    (h : s.ready = false) :
    s.draw camera inp = (s, []) := by
  simp [Pipeline.draw, h]

/-- An unready `drawFull` is an identity with an empty trace. -/
theorem drawFull_not_ready (s : Pipeline) (camera : Camera) (inp : DrawInput)
    (h : s.ready = false) :
    s.drawFull camera inp = (s, []) := by
  simp [Pipeline.drawFull, h]

/-- C7: until the asynchronous noise-texture load flips the readiness
flag, `draw` and `drawFull` return immediately: no collaborator call is
issued and the whole pipeline state is untouched; consequently any
sequence made of such calls (a load that never completes) leaves the
pipeline unchanged forever. -/
theorem notReady_noop (s : Pipeline) (camera : Camera) (inp : DrawInput)
    (h : s.ready = false) :
    s.draw camera inp = (s, []) ∧
    s.drawFull camera inp = (s, []) ∧
    (∀ cmds : List Cmd,
      (∀ c ∈ cmds, (∃ cam i, c = Cmd.draw cam i) ∨ (∃ cam i, c = Cmd.drawFull cam i)) →
      s.run cmds = (s, [])) := by
  have hdraw : ∀ cam i, s.draw cam i = (s, []) := fun cam i =>
    draw_not_ready s cam i h
  have hdrawFull : ∀ cam i, s.drawFull cam i = (s, []) := fun cam i =>
    drawFull_not_ready s cam i h
  refine ⟨hdraw camera inp, hdrawFull camera inp, ?_⟩
  intro cmds
  induction cmds with
  | nil => intro _; rfl
  | cons c rest ih =>
    intro hcmds
    have hc := hcmds c (by simp)
    have hrest : ∀ x ∈ rest,
        (∃ cam i, x = Cmd.draw cam i) ∨ (∃ cam i, x = Cmd.drawFull cam i) :=
      fun x hx => hcmds x (List.mem_cons_of_mem _ hx)
    rcases hc with ⟨cam, i, rfl⟩ | ⟨cam, i, rfl⟩
    · simp [Pipeline.run, Pipeline.step, hdraw, ih hrest]
    · simp [Pipeline.run, Pipeline.step, hdrawFull, ih hrest]

/-- Witness for C7: the freshly constructed pipeline ignores a `draw`. -/
theorem notReady_noop_witness :
    initialPipeline.draw camA inpSingle = (initialPipeline, []) :=
  (notReady_noop initialPipeline camA inpSingle rfl).1

/-! ## C10: clock edge case -/

/-- C10: `frameTime` starts as `null`; the first `time(t)` call computes
`t - null`, which JavaScript coerces to the raw timestamp `t`; each
later call yields the difference of the two most recent timestamps; and
this elapsed value is exactly what the tile scheduler (`nextTile`) and
the preview sizer (`adjustSize`, once past the warm-up) are handed. -/
theorem time_firstCall_spec (s : Pipeline) (t1 t2 : JNum) (inp : DrawInput) :
    initialPipeline.frameTime = none ∧
    (s.frameTime = none → (s.time t1).elapsedFrameTime = some t1) ∧
    (∀ tp, s.frameTime = some tp → (s.time t1).elapsedFrameTime = some (t1 - tp)) ∧
    ((s.time t1).time t2).elapsedFrameTime = some (t2 - t1) ∧
    Event.nextTile s.elapsedFrameTime ∈ (s.drawTile inp).2 ∧
    (previewFramesBeforeBenchmark ≤ s.numPreviewsRendered →
      Event.adjustSize s.elapsedFrameTime ∈ (s.drawPreview inp).2) := by
  refine ⟨rfl, ?_, ?_, ?_, ?_, ?_⟩
  · intro h
    simp [Pipeline.time, h]
  · intro tp h
    simp [Pipeline.time, h]
  · simp [Pipeline.time]
  · simp [Pipeline.drawTile]
  · intro hb
    simp [Pipeline.drawPreview, hb]

/-- Witness for C10: the very first clock call reports the raw
timestamp. -/
theorem time_firstCall_witness :
    (initialPipeline.time 5).elapsedFrameTime = some 5 :=
  (time_firstCall_spec initialPipeline 5 0 inpSingle).2.1 rfl

/-! ## Branch characterizations of the drawing paths -/

/-- The noise-configuration event takes one of exactly three shapes. -/
theorem seedNoiseEvent_cases (n : Nat) :
    seedNoiseEvent n = Event.setStrataCount 1 ∨
    seedNoiseEvent n = Event.setStrataCount strataCount ∨
    seedNoiseEvent n = Event.nextSeed := by
  unfold seedNoiseEvent
  split
  · exact Or.inl rfl
  · split
    · exact Or.inr (Or.inl rfl)
    · exact Or.inr (Or.inr rfl)

/-- Middle or last tile of a sweep: the first-tile block is skipped. -/
theorem drawTileFirstPart_not_first (s : Pipeline) (inp : DrawInput)
    (hf : inp.tile.isFirstTile = false) :
    s.drawTileFirstPart inp = (s, []) := by
  simp [Pipeline.drawTileFirstPart, hf]

/-- First tile right after a camera change: the accumulation buffer is
cleared and the reprojection pass re-pointed, then seed, G-buffer and
texture binding. -/
theorem drawTileFirstPart_clear (s : Pipeline) (inp : DrawInput)
    (hf : inp.tile.isFirstTile = true) (hz : s.sampleCount = 0) :
    s.drawTileFirstPart inp =
      (s, Event.clear s.hdrBuffer :: Event.setPreviousCamera s.lastCamera ::
        s.updateSeed s.screenWidth s.screenHeight true inp.randomX inp.randomY ++
        [Event.gBufferDraw s.gBuffer, Event.bindTextures]) := by
  simp [Pipeline.drawTileFirstPart, hf, hz, Pipeline.renderGBufferEvents,
    Pipeline.updateSeed]

/-- First tile of a later sweep: the sample-rendered notification fires
and the notification time is recorded, then seed, G-buffer and texture
binding. -/
theorem drawTileFirstPart_notify (s : Pipeline) (inp : DrawInput)
    (hf : inp.tile.isFirstTile = true) (hz : s.sampleCount ≠ 0) :
    s.drawTileFirstPart inp =
      ({ s with sampleTime := s.frameTime },
       Event.sampleRendered s.sampleCount s.sampleElapsed ::
         s.updateSeed s.screenWidth s.screenHeight true inp.randomX inp.randomY ++
         [Event.gBufferDraw s.gBuffer, Event.bindTextures]) := by
  simp [Pipeline.drawTileFirstPart, hf, hz, Pipeline.renderGBufferEvents,
    Pipeline.updateSeed]

/-- Middle or first tile of a sweep: the last-tile block is skipped. -/
theorem drawTileLastPart_not_last (s1 : Pipeline) (inp : DrawInput)
    (hl : inp.tile.isLastTile = false) :
    s1.drawTileLastPart inp = (s1, []) := by
  simp [Pipeline.drawTileLastPart, hl]

/-- Last tile while the blend amount is still positive: reproject-blend
with the freshly incremented count's blend amount, then tone-map the
blended buffer. -/
theorem drawTileLastPart_reproject (s1 : Pipeline) (inp : DrawInput)
    (hl : inp.tile.isLastTile = true)
    (hpos : 0 < blendAmountOf (s1.sampleCount + 1)) :
    s1.drawTileLastPart inp =
      ({ s1 with sampleCount := s1.sampleCount + 1
                 lastToneMappedTexture := s1.reprojectBuffer
                 lastToneMappedScale := s1.fullscreenScale },
       [Event.reprojectDraw s1.reprojectBuffer (blendAmountOf (s1.sampleCount + 1))
          s1.hdrBuffer s1.reprojectBackBuffer,
        Event.toneMapDraw s1.reprojectBuffer]) := by
  unfold Pipeline.drawTileLastPart Pipeline.toneMapToScreen
  rw [if_pos hl]
  dsimp only
  split
  · rfl
  · next h => exact absurd hpos h

/-- Last tile once the blend amount has decayed to zero: the
reprojection pass is skipped and the raw accumulation buffer is
tone-mapped directly. -/
theorem drawTileLastPart_toneonly (s1 : Pipeline) (inp : DrawInput)
    (hl : inp.tile.isLastTile = true)
    (hnpos : ¬ 0 < blendAmountOf (s1.sampleCount + 1)) :
    s1.drawTileLastPart inp =
      ({ s1 with sampleCount := s1.sampleCount + 1
                 lastToneMappedTexture := s1.hdrBuffer
                 lastToneMappedScale := s1.fullscreenScale },
       [Event.toneMapDraw s1.hdrBuffer]) := by
  unfold Pipeline.drawTileLastPart Pipeline.toneMapToScreen
  rw [if_pos hl]
  dsimp only
  split
  · next h => exact absurd h hnpos
  · rfl

/-- A ready `draw` with an unchanged camera runs `drawTile` and resets
the preview counter. -/
theorem draw_static (s : Pipeline) (camera : Camera) (inp : DrawInput)
    (hready : s.ready = true) (heq : areCamerasEqual camera s.lastCamera = true) :
    s.draw camera inp =
      ({ (s.drawTile inp).1 with numPreviewsRendered := 0 }, (s.drawTile inp).2) := by
  simp [Pipeline.draw, hready, heq]

/-- A ready `draw` with a changed camera on the very first frame only
stores state and resets the schedule. -/
theorem draw_first_frame (s : Pipeline) (camera : Camera) (inp : DrawInput)
    (hready : s.ready = true) (hneq : areCamerasEqual camera s.lastCamera = false)
    (hfirst : s.firstFrame = true) :
    s.draw camera inp =
      ({ s with lastCamera := camera, firstFrame := false, sampleCount := 0 },
       [Event.setCamera camera, Event.setPreviousCamera s.lastCamera,
        Event.tileReset]) := by
  simp [Pipeline.draw, hready, hneq, hfirst]

/-- A ready `draw` with a changed camera after the first frame renders
one preview frame, counts it, resets the schedule and the sample
count. -/
theorem draw_changed_preview (s : Pipeline) (camera : Camera) (inp : DrawInput)
    (hready : s.ready = true) (hneq : areCamerasEqual camera s.lastCamera = false)
    (hnotfirst : s.firstFrame = false) :
    s.draw camera inp =
      ({ ({ s with lastCamera := camera }.drawPreview inp).1 with
           numPreviewsRendered :=
             ({ s with lastCamera := camera }.drawPreview inp).1.numPreviewsRendered + 1
           sampleCount := 0 },
       Event.setCamera camera :: Event.setPreviousCamera s.lastCamera ::
         ({ s with lastCamera := camera }.drawPreview inp).2 ++ [Event.tileReset]) := by
  simp [Pipeline.draw, hready, hneq, hnotfirst]

/-! ## Blend-amount arithmetic -/

/-- Below the reprojection cap the blend amount is strictly positive. -/
theorem blendAmountOf_pos_of_lt {n : Nat} (h : n < maxReprojectedSamples) :
    0 < blendAmountOf n := by
  unfold blendAmountOf clamp maxReprojectedSamples at *
  have hn : (n : JNum) < 20 := by exact_mod_cast h
  have hx : 0 < (1 : JNum) - (n : JNum) / 20 := by
    have : (n : JNum) / 20 < 1 := by
      rw [div_lt_one (by norm_num)]
      linarith
    linarith
  have hmax : (0 : JNum) < max (1 - (n : JNum) / 20) 0 :=
    lt_of_lt_of_le hx (le_max_left _ _)
  have hmin : (0 : JNum) < min (max (1 - (n : JNum) / 20) 0) 1 :=
    lt_min hmax one_pos
  push_cast
  exact mul_pos hmin hmin

/-- At or above the reprojection cap the blend amount is exactly 0. -/
theorem blendAmountOf_eq_zero {n : Nat} (h : maxReprojectedSamples ≤ n) :
    blendAmountOf n = 0 := by
  unfold blendAmountOf clamp maxReprojectedSamples at *
  have h20 : (20 : JNum) ≤ (n : JNum) := by exact_mod_cast h
  have hx : (1 : JNum) - (n : JNum) / 20 ≤ 0 := by
    have : (1 : JNum) ≤ (n : JNum) / 20 := by
      rw [le_div_iff₀ (by norm_num)]
      linarith
    linarith
  push_cast
  rw [max_eq_right hx]
  norm_num

/-- The blend amount is monotonically non-increasing in the sample
count. -/
theorem blendAmountOf_antitone {n m : Nat} (h : n ≤ m) :
    blendAmountOf m ≤ blendAmountOf n := by
  unfold blendAmountOf clamp
  have hx : (1 : JNum) - (m : JNum) / (maxReprojectedSamples : JNum) ≤
      1 - (n : JNum) / (maxReprojectedSamples : JNum) := by
    unfold maxReprojectedSamples
    have hdiv : (n : JNum) / 20 ≤ (m : JNum) / 20 := by
      gcongr
    push_cast at hdiv ⊢
    linarith
  have h1 : min (max (1 - (m : JNum) / (maxReprojectedSamples : JNum)) 0) 1 ≤
      min (max (1 - (n : JNum) / (maxReprojectedSamples : JNum)) 0) 1 :=
    min_le_min (max_le_max hx le_rfl) le_rfl
  have h0 : (0 : JNum) ≤ min (max (1 - (m : JNum) / (maxReprojectedSamples : JNum)) 0) 1 :=
    le_min (le_max_right _ _) zero_le_one
  exact mul_le_mul h1 h1 h0 (le_trans h0 h1)

/-- The tile path's trace: scheduler call, first-tile block, the tile's
additive render into the accumulation buffer, last-tile block. -/
theorem drawTile_trace (s : Pipeline) (inp : DrawInput) :
    (s.drawTile inp).2 =
      Event.nextTile s.elapsedFrameTime :: (s.drawTileFirstPart inp).2 ++
        [Event.rayTraceDraw (s.drawTileFirstPart inp).1.hdrBuffer
           (s.drawTileFirstPart inp).1.screenWidth
           (s.drawTileFirstPart inp).1.screenHeight true] ++
        ((s.drawTileFirstPart inp).1.drawTileLastPart inp).2 := rfl

/-- The tile path's final state comes from the last-tile block. -/
theorem drawTile_fst (s : Pipeline) (inp : DrawInput) :
    (s.drawTile inp).1 = ((s.drawTileFirstPart inp).1.drawTileLastPart inp).1 := rfl

/-- The first-tile block changes at most the notification clock. -/
theorem drawTileFirstPart_fst_cases (s : Pipeline) (inp : DrawInput) :
    (s.drawTileFirstPart inp).1 = s ∨
    (s.drawTileFirstPart inp).1 = { s with sampleTime := s.frameTime } := by
  unfold Pipeline.drawTileFirstPart
  by_cases hf : inp.tile.isFirstTile
  · by_cases hz : s.sampleCount = 0
    · exact Or.inl (by simp [hf, hz])
    · exact Or.inr (by simp [hf, hz])
  · exact Or.inl (by simp [hf])

/-- The noise-configuration event is never a reprojection draw. -/
theorem ne_seed_reproject (n : Nat) (t : Buffer) (b : JNum) (l p : Buffer) :
    Event.reprojectDraw t b l p ≠ seedNoiseEvent n := by
  rcases seedNoiseEvent_cases n with hc | hc | hc <;> rw [hc] <;> simp

/-- The noise-configuration event is never a tone-map draw. -/
theorem ne_seed_toneMap (n : Nat) (l : Buffer) :
    Event.toneMapDraw l ≠ seedNoiseEvent n := by
  rcases seedNoiseEvent_cases n with hc | hc | hc <;> rw [hc] <;> simp

/-- The noise-configuration event is never a sample-rendered
notification. -/
theorem ne_seed_sampleRendered (n k : Nat) (e : Option JNum) :
    Event.sampleRendered k e ≠ seedNoiseEvent n := by
  rcases seedNoiseEvent_cases n with hc | hc | hc <;> rw [hc] <;> simp

/-- The noise-configuration event is never a ray-trace draw. -/
theorem ne_seed_rayTraceDraw (n : Nat) (t : Buffer) (w h : JNum) (a : Bool) :
    Event.rayTraceDraw t w h a ≠ seedNoiseEvent n := by
  rcases seedNoiseEvent_cases n with hc | hc | hc <;> rw [hc] <;> simp

/-- The noise-configuration event is never a buffer clear. -/
theorem ne_seed_clear (n : Nat) (bf : Buffer) :
    Event.clear bf ≠ seedNoiseEvent n := by
  rcases seedNoiseEvent_cases n with hc | hc | hc <;> rw [hc] <;> simp

/-- The first-tile block never invokes the reprojection pass. -/
theorem drawTileFirstPart_no_reproject (s : Pipeline) (inp : DrawInput)
    (target : Buffer) (b : JNum) (light prev : Buffer) :
    Event.reprojectDraw target b light prev ∉ (s.drawTileFirstPart inp).2 := by
  intro h
  unfold Pipeline.drawTileFirstPart Pipeline.updateSeed Pipeline.renderGBufferEvents at h
  by_cases hf : inp.tile.isFirstTile <;>
    by_cases hz : s.sampleCount = 0 <;>
      simp [hf, hz, ne_seed_reproject] at h

/-- The first-tile block never invokes the tone-map pass. -/
theorem drawTileFirstPart_no_toneMap (s : Pipeline) (inp : DrawInput) (light : Buffer) :
    Event.toneMapDraw light ∉ (s.drawTileFirstPart inp).2 := by
  intro h
  unfold Pipeline.drawTileFirstPart Pipeline.updateSeed Pipeline.renderGBufferEvents at h
  by_cases hf : inp.tile.isFirstTile <;>
    by_cases hz : s.sampleCount = 0 <;>
      simp [hf, hz, ne_seed_toneMap] at h

/-! ## C3: blend amount on sweep completion -/

/-- C3: on the draw call that completes a sweep, every reprojection
invocation carries exactly `clamp(1 - sampleCount/20, 0, 1)^2` computed
with the freshly incremented sample count; this falloff is
monotonically non-increasing in the sample count and is exactly 0 from
sample count 20 (`maxReprojectedSamples`) on, in which case the
reprojection pass is not invoked at all and the tone-map pass reads the
raw accumulation (HDR) buffer directly. -/
theorem blendAmount_spec (s : Pipeline) (camera : Camera) (inp : DrawInput)
    (hready : s.ready = true)
    (heq : areCamerasEqual camera s.lastCamera = true)
    (hlast : inp.tile.isLastTile = true) :
    (∀ target b light prev,
      Event.reprojectDraw target b light prev ∈ (s.draw camera inp).2 →
      b = blendAmountOf (s.sampleCount + 1)) ∧
    (∀ n m : Nat, n ≤ m → blendAmountOf m ≤ blendAmountOf n) ∧
    (∀ n : Nat, maxReprojectedSamples ≤ n → blendAmountOf n = 0) ∧
    (maxReprojectedSamples ≤ s.sampleCount + 1 →
      (∀ target b light prev,
        Event.reprojectDraw target b light prev ∉ (s.draw camera inp).2) ∧
      Event.toneMapDraw s.hdrBuffer ∈ (s.draw camera inp).2) := by
  have htr : (s.draw camera inp).2 = (s.drawTile inp).2 := by
    rw [draw_static s camera inp hready heq]
  have hs1 := drawTileFirstPart_fst_cases s inp
  have hs1count : (s.drawTileFirstPart inp).1.sampleCount = s.sampleCount := by
    rcases hs1 with h | h <;> rw [h]
  have hs1hdr : (s.drawTileFirstPart inp).1.hdrBuffer = s.hdrBuffer := by
    rcases hs1 with h | h <;> rw [h]
  refine ⟨?_, fun n m h => blendAmountOf_antitone h,
    fun n h => blendAmountOf_eq_zero h, ?_⟩
  · intro target b light prev hmem
    rw [htr, drawTile_trace] at hmem
    rcases List.mem_cons.mp hmem with hc | hmem2
    · exact absurd hc (by simp)
    rcases List.mem_append.mp hmem2 with hmem3 | hlast2
    · rcases List.mem_append.mp hmem3 with hfirst2 | hray
      · exact absurd hfirst2 (drawTileFirstPart_no_reproject s inp target b light prev)
      · exact absurd hray (by simp)
    · by_cases hpos : 0 < blendAmountOf ((s.drawTileFirstPart inp).1.sampleCount + 1)
      · rw [drawTileLastPart_reproject _ inp hlast hpos] at hlast2
        rcases List.mem_cons.mp hlast2 with h | hl
        · injection h with ht hb hli hp
          rw [hs1count] at hb
          exact hb
        · rcases List.mem_cons.mp hl with h | hl2
          · exact absurd h (by simp)
          · exact absurd hl2 (by simp)
      · rw [drawTileLastPart_toneonly _ inp hlast hpos] at hlast2
        rcases List.mem_cons.mp hlast2 with h | hl
        · exact absurd h (by simp)
        · exact absurd hl (by simp)
  · intro hge
    have hge1 : maxReprojectedSamples ≤ (s.drawTileFirstPart inp).1.sampleCount + 1 := by
      rw [hs1count]
      exact hge
    have hz := blendAmountOf_eq_zero hge1
    have hnpos : ¬ 0 < blendAmountOf ((s.drawTileFirstPart inp).1.sampleCount + 1) := by
      rw [hz]
      exact lt_irrefl 0
    constructor
    · intro target b light prev hmem
      rw [htr, drawTile_trace] at hmem
      rcases List.mem_cons.mp hmem with hc | hmem2
      · exact absurd hc (by simp)
      rcases List.mem_append.mp hmem2 with hmem3 | hlast2
      · rcases List.mem_append.mp hmem3 with hfirst2 | hray
        · exact absurd hfirst2 (drawTileFirstPart_no_reproject s inp target b light prev)
        · exact absurd hray (by simp)
      · rw [drawTileLastPart_toneonly _ inp hlast hnpos] at hlast2
        rcases List.mem_cons.mp hlast2 with h | hl
        · exact absurd h (by simp)
        · exact absurd hl (by simp)
    · rw [htr, drawTile_trace, drawTileLastPart_toneonly _ inp hlast hnpos]
      simp [hs1hdr]

/-- Witness for C3 at a concrete state: the falloff is monotone between
sample counts 3 and 5. -/
theorem blendAmount_spec_witness : blendAmountOf 5 ≤ blendAmountOf 3 :=
  (blendAmount_spec sStored camA inpSingle (by decide) (by decide) rfl).2.1 3 5 (by norm_num)

/-! ## C1: sample-count invariant -/

/-- The last-tile block increments the sample count exactly on the last
tile. -/
theorem drawTileLastPart_sampleCount (s1 : Pipeline) (inp : DrawInput) :
    (s1.drawTileLastPart inp).1.sampleCount =
      if inp.tile.isLastTile then s1.sampleCount + 1 else s1.sampleCount := by
  by_cases hl : inp.tile.isLastTile
  · by_cases hpos : 0 < blendAmountOf (s1.sampleCount + 1)
    · rw [drawTileLastPart_reproject s1 inp hl hpos, if_pos hl]
    · rw [drawTileLastPart_toneonly s1 inp hl hpos, if_pos hl]
  · rw [drawTileLastPart_not_last s1 inp (by simpa using hl), if_neg hl]

/-- The tile path increments the sample count exactly on the last tile
of a sweep. -/
theorem drawTile_sampleCount (s : Pipeline) (inp : DrawInput) :
    (s.drawTile inp).1.sampleCount =
      if inp.tile.isLastTile then s.sampleCount + 1 else s.sampleCount := by
  rw [drawTile_fst, drawTileLastPart_sampleCount]
  rcases drawTileFirstPart_fst_cases s inp with h | h <;> rw [h]

/-- The preview path never touches the sample count. -/
theorem drawPreview_sampleCount (s : Pipeline) (inp : DrawInput) :
    (s.drawPreview inp).1.sampleCount = s.sampleCount := by
  unfold Pipeline.drawPreview Pipeline.toneMapToScreen Pipeline.swapBuffers
    Pipeline.swapReprojectBuffer Pipeline.swapGBuffer Pipeline.swapHdrBuffer
  by_cases hz : 0 < s.sampleCount <;> simp [hz]

/-- Per-call sample-count dynamics of `draw`. -/
theorem draw_sampleCount_cases (s : Pipeline) (camera : Camera) (inp : DrawInput)
    (hready : s.ready = true) :
    (areCamerasEqual camera s.lastCamera = false →
      (s.draw camera inp).1.sampleCount = 0) ∧
    (areCamerasEqual camera s.lastCamera = true →
      (s.draw camera inp).1.sampleCount =
        if inp.tile.isLastTile then s.sampleCount + 1 else s.sampleCount) := by
  constructor
  · intro hneq
    by_cases hfirst : s.firstFrame = true
    · rw [draw_first_frame s camera inp hready hneq hfirst]
    · rw [draw_changed_preview s camera inp hready hneq (by simpa using hfirst)]
  · intro heq
    rw [draw_static s camera inp hready heq]
    simp [drawTile_sampleCount]

/-- Along any sequence of `draw` calls the sample count gains at most
one per completed sweep. -/
theorem runDraws_sampleCount_le (calls : List (Camera × DrawInput)) :
    ∀ s : Pipeline,
      (s.runDraws calls).sampleCount ≤ s.sampleCount + s.completedSweeps calls := by
  induction calls with
  | nil =>
    intro s
    simp [Pipeline.runDraws, Pipeline.completedSweeps]
  | cons p rest ih =>
    intro s
    obtain ⟨camera, inp⟩ := p
    simp only [Pipeline.runDraws, Pipeline.completedSweeps]
    have hstep := ih (s.draw camera inp).1
    have hcount : (s.draw camera inp).1.sampleCount ≤
        s.sampleCount +
          (if s.ready && areCamerasEqual camera s.lastCamera && inp.tile.isLastTile
           then 1 else 0) := by
      by_cases hready : s.ready = true
      · by_cases heq : areCamerasEqual camera s.lastCamera = true
        · have h2 := (draw_sampleCount_cases s camera inp hready).2 heq
          by_cases hl : inp.tile.isLastTile = true
          · rw [h2, if_pos hl]
            simp [hready, heq, hl]
          · rw [h2, if_neg (by simp [hl])]
            simp
        · have h1 := (draw_sampleCount_cases s camera inp hready).1 (by simpa using heq)
          simp [h1]
      · have hno : s.draw camera inp = (s, []) :=
          draw_not_ready s camera inp (by simpa using hready)
        simp [hno]
    have hsum := add_le_add_right hcount ((s.draw camera inp).1.completedSweeps rest)
    have := le_trans hstep hsum
    simpa [Nat.add_assoc] using this

/-- C1: after the renderer is ready, the sample count is 0 right after
every `draw` whose camera differs from the stored snapshot (the very
first draw included); with an unchanged camera it gains exactly one on
the draw that receives the last tile of a sweep and is untouched by
every other tile; and from any freshly reset state it never exceeds the
number of sweeps completed since the reset. -/
theorem sampleCount_invariant (s : Pipeline) (camera : Camera) (inp : DrawInput)
    (hready : s.ready = true) :
    (areCamerasEqual camera s.lastCamera = false →
      (s.draw camera inp).1.sampleCount = 0) ∧
    (areCamerasEqual camera s.lastCamera = true → inp.tile.isLastTile = true →
      (s.draw camera inp).1.sampleCount = s.sampleCount + 1) ∧
    (areCamerasEqual camera s.lastCamera = true → inp.tile.isLastTile = false →
      (s.draw camera inp).1.sampleCount = s.sampleCount) ∧
    (s.sampleCount = 0 → ∀ calls : List (Camera × DrawInput),
      (s.runDraws calls).sampleCount ≤ s.completedSweeps calls) := by
  refine ⟨(draw_sampleCount_cases s camera inp hready).1, ?_, ?_, ?_⟩
  · intro heq hl
    rw [(draw_sampleCount_cases s camera inp hready).2 heq, if_pos hl]
  · intro heq hl
    rw [(draw_sampleCount_cases s camera inp hready).2 heq, if_neg (by simp [hl])]
  · intro hz calls
    have h := runDraws_sampleCount_le calls s
    simpa [hz] using h

/-- Witness for C1 at a concrete state: completing a single-tile sweep
with a static camera raises the sample count from 0 to 1. -/
theorem sampleCount_invariant_witness :
    (sStored.draw camA inpSingle).1.sampleCount = sStored.sampleCount + 1 :=
  (sampleCount_invariant sStored camA inpSingle (by decide)).2.1 (by decide) rfl

/-! ## C5: the debug full-frame path -/

/-- `drawFull` after a camera change: reset, clear the accumulation
buffer, then the full re-render with blend amount 1. -/
theorem drawFull_eq_changed (s : Pipeline) (camera : Camera) (inp : DrawInput)
    (hready : s.ready = true)
    (hneq : areCamerasEqual camera s.lastCamera = false) :
    s.drawFull camera inp =
      ({ s with sampleCount := 0
                lastCamera := camera
                gBuffer := s.gBufferBack
                gBufferBack := s.gBuffer
                reprojectBuffer := s.reprojectBackBuffer
                reprojectBackBuffer := s.reprojectBuffer
                lastToneMappedTexture := s.reprojectBackBuffer
                lastToneMappedScale := s.fullscreenScale },
       [Event.clear s.hdrBuffer, Event.setCamera camera,
        Event.setPreviousCamera s.lastCamera,
        Event.raySetSize s.screenWidth s.screenHeight,
        Event.setJitter ((inp.randomX - 1/2) / s.screenWidth)
          ((inp.randomY - 1/2) / s.screenHeight),
        seedNoiseEvent 0,
        Event.gBufferDraw s.gBufferBack, Event.bindTextures,
        Event.rayTraceDraw s.hdrBuffer s.screenWidth s.screenHeight true,
        Event.reprojectDraw s.reprojectBackBuffer 1 s.hdrBuffer s.lastToneMappedTexture,
        Event.toneMapDraw s.reprojectBackBuffer]) := by
  unfold Pipeline.drawFull Pipeline.swapGBuffer Pipeline.swapReprojectBuffer
    Pipeline.updateSeed Pipeline.renderGBufferEvents Pipeline.toneMapToScreen
  simp [hready, hneq]

/-- `drawFull` with an unchanged camera: count one more sample, no
clear, then the full re-render with blend amount 1. -/
theorem drawFull_eq_static (s : Pipeline) (camera : Camera) (inp : DrawInput)
    (hready : s.ready = true)
    (heq : areCamerasEqual camera s.lastCamera = true) :
    s.drawFull camera inp =
      ({ s with sampleCount := s.sampleCount + 1
                lastCamera := camera
                gBuffer := s.gBufferBack
                gBufferBack := s.gBuffer
                reprojectBuffer := s.reprojectBackBuffer
                reprojectBackBuffer := s.reprojectBuffer
                lastToneMappedTexture := s.reprojectBackBuffer
                lastToneMappedScale := s.fullscreenScale },
       [Event.setCamera camera, Event.setPreviousCamera s.lastCamera,
        Event.raySetSize s.screenWidth s.screenHeight,
        Event.setJitter ((inp.randomX - 1/2) / s.screenWidth)
          ((inp.randomY - 1/2) / s.screenHeight),
        seedNoiseEvent (s.sampleCount + 1),
        Event.gBufferDraw s.gBufferBack, Event.bindTextures,
        Event.rayTraceDraw s.hdrBuffer s.screenWidth s.screenHeight true,
        Event.reprojectDraw s.reprojectBackBuffer 1 s.hdrBuffer s.lastToneMappedTexture,
        Event.toneMapDraw s.reprojectBackBuffer]) := by
  unfold Pipeline.drawFull Pipeline.swapGBuffer Pipeline.swapReprojectBuffer
    Pipeline.updateSeed Pipeline.renderGBufferEvents Pipeline.toneMapToScreen
  simp [hready, heq]

/-- C5: every ready `drawFull` swaps the G-buffer pair and the
reprojection pair but leaves the accumulation pair in place, re-renders
the G-buffer and one full-resolution light sample, and invokes the
reprojection pass with blend amount 1 regardless of the sample count;
a camera change resets the sample count to 0 and clears the
accumulation buffer, otherwise the sample count gains one and nothing
is cleared. -/
theorem drawFull_spec (s : Pipeline) (camera : Camera) (inp : DrawInput)
    (hready : s.ready = true) :
    ((s.drawFull camera inp).1.gBuffer = s.gBufferBack ∧
     (s.drawFull camera inp).1.gBufferBack = s.gBuffer) ∧
    ((s.drawFull camera inp).1.reprojectBuffer = s.reprojectBackBuffer ∧
     (s.drawFull camera inp).1.reprojectBackBuffer = s.reprojectBuffer) ∧
    ((s.drawFull camera inp).1.hdrBuffer = s.hdrBuffer ∧
     (s.drawFull camera inp).1.hdrBackBuffer = s.hdrBackBuffer) ∧
    Event.gBufferDraw s.gBufferBack ∈ (s.drawFull camera inp).2 ∧
    Event.rayTraceDraw s.hdrBuffer s.screenWidth s.screenHeight true ∈
      (s.drawFull camera inp).2 ∧
    Event.reprojectDraw s.reprojectBackBuffer 1 s.hdrBuffer s.lastToneMappedTexture ∈
      (s.drawFull camera inp).2 ∧
    (∀ target b light prev,
      Event.reprojectDraw target b light prev ∈ (s.drawFull camera inp).2 → b = 1) ∧
    (areCamerasEqual camera s.lastCamera = false →
      (s.drawFull camera inp).1.sampleCount = 0 ∧
      Event.clear s.hdrBuffer ∈ (s.drawFull camera inp).2) ∧
    (areCamerasEqual camera s.lastCamera = true →
      (s.drawFull camera inp).1.sampleCount = s.sampleCount + 1 ∧
      ∀ bf : Buffer, Event.clear bf ∉ (s.drawFull camera inp).2) := by
  by_cases heq : areCamerasEqual camera s.lastCamera = true
  · rw [drawFull_eq_static s camera inp hready heq]
    refine ⟨⟨rfl, rfl⟩, ⟨rfl, rfl⟩, ⟨rfl, rfl⟩, by simp, by simp, by simp, ?_, ?_, ?_⟩
    · intro target b light prev hm
      simp [ne_seed_reproject] at hm
      exact hm.2.1
    · intro h
      rw [heq] at h
      cases h
    · intro _
      exact ⟨rfl, fun bf => by simp [ne_seed_clear]⟩
  · have hneq : areCamerasEqual camera s.lastCamera = false := by simpa using heq
    rw [drawFull_eq_changed s camera inp hready hneq]
    refine ⟨⟨rfl, rfl⟩, ⟨rfl, rfl⟩, ⟨rfl, rfl⟩, by simp, by simp, by simp, ?_, ?_, ?_⟩
    · intro target b light prev hm
      simp [ne_seed_reproject] at hm
      exact hm.2.1
    · intro _
      exact ⟨rfl, by simp⟩
    · intro h
      rw [hneq] at h
      cases h

/-- Witness for C5 at a concrete state: a camera change in `drawFull`
resets the count and clears the accumulation buffer. -/
theorem drawFull_spec_witness :
    (sStored.drawFull camB inpSingle).1.sampleCount = 0 ∧
    Event.clear sStored.hdrBuffer ∈ (sStored.drawFull camB inpSingle).2 :=
  (drawFull_spec sStored camB inpSingle (by decide)).2.2.2.2.2.2.2.1 (by decide)

/-! ## C6: noise-seed schedule -/

/-- The preview path's trace, flattened. -/
theorem drawPreview_trace (s : Pipeline) (inp : DrawInput) :
    (s.drawPreview inp).2 =
      (if previewFramesBeforeBenchmark ≤ s.numPreviewsRendered
       then [Event.adjustSize s.elapsedFrameTime] else []) ++
      [Event.raySetSize inp.preview.width inp.preview.height,
       Event.setJitter 0 0,
       seedNoiseEvent s.sampleCount,
       Event.gBufferDraw (if 0 < s.sampleCount then s.gBufferBack else s.gBuffer),
       Event.bindTextures,
       Event.rayTraceDraw (if 0 < s.sampleCount then s.hdrBackBuffer else s.hdrBuffer)
         inp.preview.width inp.preview.height false,
       Event.reprojectDraw
         (if 0 < s.sampleCount then s.reprojectBackBuffer else s.reprojectBuffer) 1
         (if 0 < s.sampleCount then s.hdrBackBuffer else s.hdrBuffer)
         s.lastToneMappedTexture,
       Event.toneMapDraw
         (if 0 < s.sampleCount then s.reprojectBackBuffer else s.reprojectBuffer)] := by
  unfold Pipeline.drawPreview Pipeline.updateSeed Pipeline.renderGBufferEvents
    Pipeline.toneMapToScreen Pipeline.swapBuffers Pipeline.swapReprojectBuffer
    Pipeline.swapGBuffer Pipeline.swapHdrBuffer
  by_cases hz : 0 < s.sampleCount <;>
    by_cases hb : previewFramesBeforeBenchmark ≤ s.numPreviewsRendered <;>
      simp [hz, hb]

/-- Prepending a non-render event preserves seed-before-render. -/
theorem seedConfiguredBeforeRender_cons (e : Event) (trace : List Event) (n : Nat)
    (he : ∀ (target : Buffer) (w h : JNum) (additive : Bool),
      e ≠ Event.rayTraceDraw target w h additive)
    (h : seedConfiguredBeforeRender trace n) :
    seedConfiguredBeforeRender (e :: trace) n := by
  obtain ⟨l1, l2, heq, hno⟩ := h
  refine ⟨e :: l1, l2, by rw [heq]; rfl, ?_⟩
  intro t w hh a hm
  rcases List.mem_cons.mp hm with hc | hc
  · exact he t w hh a hc.symm
  · exact hno t w hh a hc

/-- A trace that starts with the noise configuration satisfies
seed-before-render. -/
theorem seedConfiguredBeforeRender_head (n : Nat) (l2 : List Event) :
    seedConfiguredBeforeRender (seedNoiseEvent n :: l2) n :=
  ⟨[], l2, rfl, by simp⟩

/-- C6: on every rendered frame — the preview after a camera change,
the first tile of a sweep, and every `drawFull` — the orchestrator
configures the light-transport noise before any ray-trace render, and
the configuration follows the schedule: 1 stratum at sample count 0,
`strataCount` (6) strata at sample count `numUniformSamples` (4), and
the next pseudo-random seed otherwise. -/
theorem updateSeed_schedule (s : Pipeline) (camera : Camera) (inp : DrawInput)
    (hready : s.ready = true) :
    seedNoiseEvent 0 = Event.setStrataCount 1 ∧
    seedNoiseEvent numUniformSamples = Event.setStrataCount strataCount ∧
    (∀ n : Nat, n ≠ 0 → n ≠ numUniformSamples → seedNoiseEvent n = Event.nextSeed) ∧
    (areCamerasEqual camera s.lastCamera = false → s.firstFrame = false →
      seedConfiguredBeforeRender (s.draw camera inp).2 s.sampleCount) ∧
    (areCamerasEqual camera s.lastCamera = true → inp.tile.isFirstTile = true →
      seedConfiguredBeforeRender (s.draw camera inp).2 s.sampleCount) ∧
    (areCamerasEqual camera s.lastCamera = false →
      seedConfiguredBeforeRender (s.drawFull camera inp).2 0) ∧
    (areCamerasEqual camera s.lastCamera = true →
      seedConfiguredBeforeRender (s.drawFull camera inp).2 (s.sampleCount + 1)) := by
  refine ⟨rfl, rfl, ?_, ?_, ?_, ?_, ?_⟩
  · intro n h0 h4
    unfold seedNoiseEvent
    rw [if_neg h0, if_neg h4]
  · intro hneq hnf
    rw [draw_changed_preview s camera inp hready hneq hnf, drawPreview_trace]
    by_cases hb : previewFramesBeforeBenchmark ≤ s.numPreviewsRendered
    · simp only [if_pos hb, List.cons_append, List.append_assoc, List.nil_append]
      exact seedConfiguredBeforeRender_cons _ _ _ (by simp)
        (seedConfiguredBeforeRender_cons _ _ _ (by simp)
          (seedConfiguredBeforeRender_cons _ _ _ (by simp)
            (seedConfiguredBeforeRender_cons _ _ _ (by simp)
              (seedConfiguredBeforeRender_cons _ _ _ (by simp)
                (seedConfiguredBeforeRender_head _ _)))))
    · simp only [if_neg hb, List.cons_append, List.append_assoc, List.nil_append]
      exact seedConfiguredBeforeRender_cons _ _ _ (by simp)
        (seedConfiguredBeforeRender_cons _ _ _ (by simp)
          (seedConfiguredBeforeRender_cons _ _ _ (by simp)
            (seedConfiguredBeforeRender_cons _ _ _ (by simp)
              (seedConfiguredBeforeRender_head _ _))))
  · intro heq hft
    rw [draw_static s camera inp hready heq, drawTile_trace]
    by_cases hz : s.sampleCount = 0
    · rw [drawTileFirstPart_clear s inp hft hz]
      unfold Pipeline.updateSeed
      simp only [List.cons_append, List.append_assoc, List.nil_append]
      exact seedConfiguredBeforeRender_cons _ _ _ (by simp)
        (seedConfiguredBeforeRender_cons _ _ _ (by simp)
          (seedConfiguredBeforeRender_cons _ _ _ (by simp)
            (seedConfiguredBeforeRender_cons _ _ _ (by simp)
              (seedConfiguredBeforeRender_cons _ _ _ (by simp)
                (seedConfiguredBeforeRender_head _ _)))))
    · rw [drawTileFirstPart_notify s inp hft hz]
      unfold Pipeline.updateSeed
      simp only [List.cons_append, List.append_assoc, List.nil_append]
      exact seedConfiguredBeforeRender_cons _ _ _ (by simp)
        (seedConfiguredBeforeRender_cons _ _ _ (by simp)
          (seedConfiguredBeforeRender_cons _ _ _ (by simp)
            (seedConfiguredBeforeRender_cons _ _ _ (by simp)
              (seedConfiguredBeforeRender_head _ _))))
  · intro hneq
    rw [drawFull_eq_changed s camera inp hready hneq]
    exact seedConfiguredBeforeRender_cons _ _ _ (by simp)
      (seedConfiguredBeforeRender_cons _ _ _ (by simp)
        (seedConfiguredBeforeRender_cons _ _ _ (by simp)
          (seedConfiguredBeforeRender_cons _ _ _ (by simp)
            (seedConfiguredBeforeRender_cons _ _ _ (by simp)
              (seedConfiguredBeforeRender_head _ _)))))
  · intro heq
    rw [drawFull_eq_static s camera inp hready heq]
    exact seedConfiguredBeforeRender_cons _ _ _ (by simp)
      (seedConfiguredBeforeRender_cons _ _ _ (by simp)
        (seedConfiguredBeforeRender_cons _ _ _ (by simp)
          (seedConfiguredBeforeRender_cons _ _ _ (by simp)
            (seedConfiguredBeforeRender_head _ _))))

/-- Witness for C6 at a concrete state: the first tile after the first
stored camera configures the noise before rendering. -/
theorem updateSeed_schedule_witness :
    seedConfiguredBeforeRender (sStored.draw camA inpSingle).2 sStored.sampleCount :=
  (updateSeed_schedule sStored camA inpSingle (by decide)).2.2.2.2.1 (by decide) rfl

/-! ## C8: the sample-rendered notification -/

/-- The noise-configuration event is never a notification. -/
theorem isSampleRenderedEvent_seed (n : Nat) :
    isSampleRenderedEvent (seedNoiseEvent n) = false := by
  rcases seedNoiseEvent_cases n with hc | hc | hc <;> rw [hc] <;> rfl

/-- Only the notification constructor counts as a notification. -/
theorem isSampleRenderedEvent_nextTile (e : Option JNum) :
    isSampleRenderedEvent (Event.nextTile e) = false := rfl

/-- Only the notification constructor counts as a notification. -/
theorem isSampleRenderedEvent_adjustSize (e : Option JNum) :
    isSampleRenderedEvent (Event.adjustSize e) = false := rfl

/-- Only the notification constructor counts as a notification. -/
theorem isSampleRenderedEvent_raySetSize (w h : JNum) :
    isSampleRenderedEvent (Event.raySetSize w h) = false := rfl

/-- Only the notification constructor counts as a notification. -/
theorem isSampleRenderedEvent_setJitter (x y : JNum) :
    isSampleRenderedEvent (Event.setJitter x y) = false := rfl

/-- Only the notification constructor counts as a notification. -/
theorem isSampleRenderedEvent_setCamera (c : Camera) :
    isSampleRenderedEvent (Event.setCamera c) = false := rfl

/-- Only the notification constructor counts as a notification. -/
theorem isSampleRenderedEvent_setPreviousCamera (c : Camera) :
    isSampleRenderedEvent (Event.setPreviousCamera c) = false := rfl

/-- Only the notification constructor counts as a notification. -/
theorem isSampleRenderedEvent_clear (b : Buffer) :
    isSampleRenderedEvent (Event.clear b) = false := rfl

/-- Only the notification constructor counts as a notification. -/
theorem isSampleRenderedEvent_gBufferDraw (b : Buffer) :
    isSampleRenderedEvent (Event.gBufferDraw b) = false := rfl

/-- Only the notification constructor counts as a notification. -/
theorem isSampleRenderedEvent_bindTextures :
    isSampleRenderedEvent Event.bindTextures = false := rfl

/-- Only the notification constructor counts as a notification. -/
theorem isSampleRenderedEvent_rayTraceDraw (t : Buffer) (w h : JNum) (a : Bool) :
    isSampleRenderedEvent (Event.rayTraceDraw t w h a) = false := rfl

/-- Only the notification constructor counts as a notification. -/
theorem isSampleRenderedEvent_reprojectDraw (t : Buffer) (b : JNum) (l p : Buffer) :
    isSampleRenderedEvent (Event.reprojectDraw t b l p) = false := rfl

/-- Only the notification constructor counts as a notification. -/
theorem isSampleRenderedEvent_toneMapDraw (l : Buffer) :
    isSampleRenderedEvent (Event.toneMapDraw l) = false := rfl

/-- Only the notification constructor counts as a notification. -/
theorem isSampleRenderedEvent_tileReset :
    isSampleRenderedEvent Event.tileReset = false := rfl

/-- The notification constructor counts as a notification. -/
theorem isSampleRenderedEvent_sampleRendered (k : Nat) (e : Option JNum) :
    isSampleRenderedEvent (Event.sampleRendered k e) = true := rfl

/-- Notification counting distributes over concatenation. -/
theorem countSampleRendered_append (a b : List Event) :
    countSampleRendered (a ++ b) = countSampleRendered a + countSampleRendered b := by
  simp [countSampleRendered, List.filter_append]

/-- Non-notification events do not contribute to the count. -/
theorem countSampleRendered_cons_other (e : Event) (l : List Event)
    (he : isSampleRenderedEvent e = false) :
    countSampleRendered (e :: l) = countSampleRendered l := by
  simp [countSampleRendered, List.filter_cons, he]

/-- The first-tile block notifies exactly when a sweep is pending. -/
theorem drawTileFirstPart_countSampleRendered (s : Pipeline) (inp : DrawInput) :
    countSampleRendered (s.drawTileFirstPart inp).2 =
      if inp.tile.isFirstTile = true ∧ s.sampleCount ≠ 0 then 1 else 0 := by
  by_cases hf : inp.tile.isFirstTile = true
  · by_cases hz : s.sampleCount = 0
    · rw [drawTileFirstPart_clear s inp hf hz]
      unfold Pipeline.updateSeed
      simp [countSampleRendered, List.filter_cons, List.filter_append, hf, hz,
        isSampleRenderedEvent_seed, isSampleRenderedEvent_clear,
        isSampleRenderedEvent_setPreviousCamera, isSampleRenderedEvent_raySetSize,
        isSampleRenderedEvent_setJitter, isSampleRenderedEvent_gBufferDraw,
        isSampleRenderedEvent_bindTextures]
    · rw [drawTileFirstPart_notify s inp hf hz]
      unfold Pipeline.updateSeed
      simp [countSampleRendered, List.filter_cons, List.filter_append, hf, hz,
        isSampleRenderedEvent_seed, isSampleRenderedEvent_sampleRendered,
        isSampleRenderedEvent_raySetSize, isSampleRenderedEvent_setJitter,
        isSampleRenderedEvent_gBufferDraw, isSampleRenderedEvent_bindTextures]
  · rw [drawTileFirstPart_not_first s inp (by simpa using hf)]
    simp [countSampleRendered, hf]

/-- The last-tile block never notifies. -/
theorem drawTileLastPart_countSampleRendered (s1 : Pipeline) (inp : DrawInput) :
    countSampleRendered (s1.drawTileLastPart inp).2 = 0 := by
  by_cases hl : inp.tile.isLastTile = true
  · by_cases hpos : 0 < blendAmountOf (s1.sampleCount + 1)
    · rw [drawTileLastPart_reproject s1 inp hl hpos]
      simp [countSampleRendered, List.filter_cons,
        isSampleRenderedEvent_reprojectDraw, isSampleRenderedEvent_toneMapDraw]
    · rw [drawTileLastPart_toneonly s1 inp hl hpos]
      simp [countSampleRendered, List.filter_cons, isSampleRenderedEvent_toneMapDraw]
  · rw [drawTileLastPart_not_last s1 inp (by simpa using hl)]
    simp [countSampleRendered]

/-- The tile path notifies exactly on the first tile of a sweep whose
sample count is positive. -/
theorem drawTile_countSampleRendered (s : Pipeline) (inp : DrawInput) :
    countSampleRendered (s.drawTile inp).2 =
      if inp.tile.isFirstTile = true ∧ s.sampleCount ≠ 0 then 1 else 0 := by
  rw [drawTile_trace, countSampleRendered_append, countSampleRendered_append,
    countSampleRendered_cons_other (Event.nextTile s.elapsedFrameTime) _
      (isSampleRenderedEvent_nextTile _),
    drawTileFirstPart_countSampleRendered, drawTileLastPart_countSampleRendered,
    countSampleRendered_cons_other _ _ (isSampleRenderedEvent_rayTraceDraw _ _ _ _)]
  simp [countSampleRendered]

/-- The preview path never notifies. -/
theorem drawPreview_countSampleRendered (s : Pipeline) (inp : DrawInput) :
    countSampleRendered (s.drawPreview inp).2 = 0 := by
  rw [drawPreview_trace]
  by_cases hb : previewFramesBeforeBenchmark ≤ s.numPreviewsRendered <;>
    simp [hb, countSampleRendered, List.filter_cons, List.filter_append,
      isSampleRenderedEvent_seed, isSampleRenderedEvent_adjustSize,
      isSampleRenderedEvent_raySetSize, isSampleRenderedEvent_setJitter,
      isSampleRenderedEvent_gBufferDraw, isSampleRenderedEvent_bindTextures,
      isSampleRenderedEvent_rayTraceDraw, isSampleRenderedEvent_reprojectDraw,
      isSampleRenderedEvent_toneMapDraw]

/-- C8 (amended): the notification is deferred — it fires on the draw
that starts the next sweep (first tile with a positive sample count),
exactly once, carrying the current sample count and
`frameTime - sampleTime` (NaN when that difference is 0); middle tiles,
sweep starts at count 0, camera-change draws and `drawFull` never
notify. -/
theorem sampleRendered_amended (s : Pipeline) (camera : Camera) (inp : DrawInput)
    (hready : s.ready = true) :
    (areCamerasEqual camera s.lastCamera = true → inp.tile.isFirstTile = true →
      0 < s.sampleCount →
      countSampleRendered (s.draw camera inp).2 = 1 ∧
      Event.sampleRendered s.sampleCount s.sampleElapsed ∈ (s.draw camera inp).2) ∧
    (areCamerasEqual camera s.lastCamera = true →
      inp.tile.isFirstTile = false ∨ s.sampleCount = 0 →
      countSampleRendered (s.draw camera inp).2 = 0) ∧
    (areCamerasEqual camera s.lastCamera = false →
      countSampleRendered (s.draw camera inp).2 = 0) ∧
    countSampleRendered (s.drawFull camera inp).2 = 0 := by
  refine ⟨?_, ?_, ?_, ?_⟩
  · intro heq hf hpos
    constructor
    · rw [draw_static s camera inp hready heq]
      show countSampleRendered (s.drawTile inp).2 = 1
      rw [drawTile_countSampleRendered, if_pos ⟨hf, by omega⟩]
    · rw [draw_static s camera inp hready heq]
      show Event.sampleRendered s.sampleCount s.sampleElapsed ∈ (s.drawTile inp).2
      rw [drawTile_trace, drawTileFirstPart_notify s inp hf (by omega)]
      simp
  · intro heq hcase
    rw [draw_static s camera inp hready heq]
    show countSampleRendered (s.drawTile inp).2 = 0
    rw [drawTile_countSampleRendered, if_neg]
    rcases hcase with h | h <;> simp [h]
  · intro hneq
    by_cases hfirst : s.firstFrame = true
    · rw [draw_first_frame s camera inp hready hneq hfirst]
      show countSampleRendered
        [Event.setCamera camera, Event.setPreviousCamera s.lastCamera,
         Event.tileReset] = 0
      simp [countSampleRendered, List.filter_cons, isSampleRenderedEvent_setCamera,
        isSampleRenderedEvent_setPreviousCamera, isSampleRenderedEvent_tileReset]
    · rw [draw_changed_preview s camera inp hready hneq (by simpa using hfirst)]
      show countSampleRendered
        ((Event.setCamera camera :: Event.setPreviousCamera s.lastCamera ::
          ({ s with lastCamera := camera }.drawPreview inp).2) ++ [Event.tileReset]) = 0
      rw [countSampleRendered_append,
        countSampleRendered_cons_other _ _ (isSampleRenderedEvent_setCamera _),
        countSampleRendered_cons_other _ _ (isSampleRenderedEvent_setPreviousCamera _),
        drawPreview_countSampleRendered]
      simp [countSampleRendered, List.filter_cons, isSampleRenderedEvent_tileReset]
  · by_cases heq : areCamerasEqual camera s.lastCamera = true
    · rw [drawFull_eq_static s camera inp hready heq]
      simp [countSampleRendered, List.filter_cons, isSampleRenderedEvent_seed,
        isSampleRenderedEvent_setCamera, isSampleRenderedEvent_setPreviousCamera,
        isSampleRenderedEvent_raySetSize, isSampleRenderedEvent_setJitter,
        isSampleRenderedEvent_gBufferDraw, isSampleRenderedEvent_bindTextures,
        isSampleRenderedEvent_rayTraceDraw, isSampleRenderedEvent_reprojectDraw,
        isSampleRenderedEvent_toneMapDraw]
    · rw [drawFull_eq_changed s camera inp hready (by simpa using heq)]
      simp [countSampleRendered, List.filter_cons, isSampleRenderedEvent_seed,
        isSampleRenderedEvent_clear, isSampleRenderedEvent_setCamera,
        isSampleRenderedEvent_setPreviousCamera, isSampleRenderedEvent_raySetSize,
        isSampleRenderedEvent_setJitter, isSampleRenderedEvent_gBufferDraw,
        isSampleRenderedEvent_bindTextures, isSampleRenderedEvent_rayTraceDraw,
        isSampleRenderedEvent_reprojectDraw, isSampleRenderedEvent_toneMapDraw]

/-- Key facts about the concrete state `sOne`. -/
theorem sOne_fields :
    sOne.ready = true ∧ areCamerasEqual camA sOne.lastCamera = true ∧
    0 < sOne.sampleCount := by
  norm_num [sOne, sStored, sReady, initialPipeline, defaultLastCamera, Pipeline.run,
    Pipeline.step, Pipeline.setSize, Pipeline.initFrameBuffers, Pipeline.draw,
    Pipeline.drawTile, Pipeline.drawTileFirstPart, Pipeline.drawTileLastPart,
    Pipeline.toneMapToScreen, areCamerasEqual, numberArraysEqual,
    camA, idMatrix, inpSingle, tileSingle, previewFixture, clamp, maxReprojectedSamples]

/-- Counterexample to C8 as stated: starting from the stored-camera
state, one full sweep completes (`camA`, single-tile) and is then
followed by a camera change (`camB`); one sweep completed on the
progressive path, yet no sample-rendered notification was ever
invoked. -/
theorem sampleRendered_counterexample :
    sStored.completedSweeps [(camA, inpSingle), (camB, inpSingle)] = 1 ∧
    countSampleRendered
      (sStored.run [Cmd.draw camA inpSingle, Cmd.draw camB inpSingle]).2 = 0 := by
  constructor <;>
    norm_num [sStored, sReady, initialPipeline, defaultLastCamera, Pipeline.run,
      Pipeline.step, Pipeline.setSize, Pipeline.initFrameBuffers, Pipeline.draw,
      Pipeline.drawTile, Pipeline.drawTileFirstPart, Pipeline.drawTileLastPart,
      Pipeline.drawPreview, Pipeline.updateSeed, seedNoiseEvent,
      Pipeline.renderGBufferEvents, Pipeline.toneMapToScreen, Pipeline.swapBuffers,
      Pipeline.swapReprojectBuffer, Pipeline.swapGBuffer, Pipeline.swapHdrBuffer,
      Pipeline.sampleElapsed, Pipeline.completedSweeps, Pipeline.runDraws,
      countSampleRendered, isSampleRenderedEvent, List.filter, areCamerasEqual,
      numberArraysEqual, clamp, maxReprojectedSamples, numUniformSamples,
      strataCount, previewFramesBeforeBenchmark, camA, camB, idMatrix, inpSingle,
      tileSingle, previewFixture]

/-- Witness for the amended C8: the first tile after a completed sweep
notifies exactly once with the current count. -/
theorem sampleRendered_amended_witness :
    countSampleRendered (sOne.draw camA inpSingle).2 = 1 ∧
    Event.sampleRendered sOne.sampleCount sOne.sampleElapsed ∈
      (sOne.draw camA inpSingle).2 :=
  (sampleRendered_amended sOne camA inpSingle sOne_fields.1).1 sOne_fields.2.1 rfl
    sOne_fields.2.2

/-! ## C9: the total-samples counter -/

/-- The stored snapshot of `sOne` is `camA`, so `camB` differs. -/
theorem sOne_camB : areCamerasEqual camB sOne.lastCamera = false := by
  norm_num [sOne, sStored, sReady, initialPipeline, defaultLastCamera, Pipeline.run,
    Pipeline.step, Pipeline.setSize, Pipeline.initFrameBuffers, Pipeline.draw,
    Pipeline.drawTile, Pipeline.drawTileFirstPart, Pipeline.drawTileLastPart,
    Pipeline.toneMapToScreen, areCamerasEqual, numberArraysEqual,
    camA, camB, idMatrix, inpSingle, tileSingle, previewFixture, clamp,
    maxReprojectedSamples]

/-- Counterexample to C9 as stated: the exposed counter is not a
cumulative total — after one completed sweep it reads 1, and the very
next draw (camera changed to `camB`) makes it read 0 again, a
decrease. -/
theorem getTotalSamplesRendered_counterexample :
    Pipeline.getTotalSamplesRendered sOne = 1 ∧
    Pipeline.getTotalSamplesRendered (sOne.draw camB inpSingle).1 = 0 := by
  constructor <;>
    norm_num [Pipeline.getTotalSamplesRendered, sOne, sStored, sReady,
      initialPipeline, defaultLastCamera, Pipeline.run, Pipeline.step,
      Pipeline.setSize, Pipeline.initFrameBuffers, Pipeline.draw, Pipeline.drawTile,
      Pipeline.drawTileFirstPart, Pipeline.drawTileLastPart, Pipeline.drawPreview,
      Pipeline.updateSeed, seedNoiseEvent, Pipeline.renderGBufferEvents,
      Pipeline.toneMapToScreen, Pipeline.swapBuffers, Pipeline.swapReprojectBuffer,
      Pipeline.swapGBuffer, Pipeline.swapHdrBuffer, areCamerasEqual,
      numberArraysEqual, clamp, maxReprojectedSamples, numUniformSamples,
      strataCount, previewFramesBeforeBenchmark, camA, camB, idMatrix, inpSingle,
      tileSingle, previewFixture]

/-- Per-call sample-count dynamics of `drawFull`. -/
theorem drawFull_sampleCount_cases (s : Pipeline) (camera : Camera) (inp : DrawInput)
    (hready : s.ready = true) :
    (areCamerasEqual camera s.lastCamera = false →
      (s.drawFull camera inp).1.sampleCount = 0) ∧
    (areCamerasEqual camera s.lastCamera = true →
      (s.drawFull camera inp).1.sampleCount = s.sampleCount + 1) := by
  constructor
  · intro hneq
    rw [drawFull_eq_changed s camera inp hready hneq]
  · intro heq
    rw [drawFull_eq_static s camera inp hready heq]

/-- C9 (amended): `getTotalSamplesRendered` returns the pipeline's
`sampleCount` — the number of samples accumulated since the last camera
change, not a monotone cumulative total: it is untouched by `time`,
reads 0 right after any camera-change `draw` or `drawFull`, gains one
exactly when a static-camera sweep completes, and gains one on every
static-camera `drawFull`. -/
theorem getTotalSamplesRendered_amended (s : Pipeline) (camera : Camera)
    (inp : DrawInput) (t : JNum) (hready : s.ready = true) :
    (s.time t).getTotalSamplesRendered = s.getTotalSamplesRendered ∧
    (areCamerasEqual camera s.lastCamera = false →
      (s.draw camera inp).1.getTotalSamplesRendered = 0 ∧
      (s.drawFull camera inp).1.getTotalSamplesRendered = 0) ∧
    (areCamerasEqual camera s.lastCamera = true →
      ((s.draw camera inp).1.getTotalSamplesRendered =
        if inp.tile.isLastTile then s.getTotalSamplesRendered + 1
        else s.getTotalSamplesRendered) ∧
      (s.drawFull camera inp).1.getTotalSamplesRendered =
        s.getTotalSamplesRendered + 1) := by
  refine ⟨rfl, ?_, ?_⟩
  · intro hneq
    exact ⟨(draw_sampleCount_cases s camera inp hready).1 hneq,
      (drawFull_sampleCount_cases s camera inp hready).1 hneq⟩
  · intro heq
    exact ⟨(draw_sampleCount_cases s camera inp hready).2 heq,
      (drawFull_sampleCount_cases s camera inp hready).2 heq⟩

/-- Witness for the amended C9: a camera change zeroes the counter on
both entry points. -/
theorem getTotalSamplesRendered_amended_witness :
    (sOne.draw camB inpSingle).1.getTotalSamplesRendered = 0 ∧
    (sOne.drawFull camB inpSingle).1.getTotalSamplesRendered = 0 :=
  (getTotalSamplesRendered_amended sOne camB inpSingle 0 sOne_fields.1).2.1 sOne_camB

/-! ## C4: first-frame behavior -/

/-- Counterexample to C4 as stated: after a `setSize` the first-frame
flag is raised again, but a `draw` whose camera equals the stored
snapshot does not behave as a first frame — it renders a tile (a
ray-trace draw is issued into the accumulation buffer) and leaves the
first-frame flag set. -/
theorem firstFrame_counterexample :
    sAfterResize.firstFrame = true ∧
    (sAfterResize.draw camA inpSingle).1.firstFrame = true ∧
    Event.rayTraceDraw sAfterResize.hdrBuffer 800 600 true ∈
      (sAfterResize.draw camA inpSingle).2 := by
  refine ⟨?_, ?_, ?_⟩ <;>
    norm_num [sAfterResize, sOne, sStored, sReady, initialPipeline,
      defaultLastCamera, Pipeline.run, Pipeline.step, Pipeline.setSize,
      Pipeline.initFrameBuffers, Pipeline.draw, Pipeline.drawTile,
      Pipeline.drawTileFirstPart, Pipeline.drawTileLastPart, Pipeline.drawPreview,
      Pipeline.updateSeed, seedNoiseEvent, Pipeline.renderGBufferEvents,
      Pipeline.toneMapToScreen, Pipeline.swapBuffers, Pipeline.swapReprojectBuffer,
      Pipeline.swapGBuffer, Pipeline.swapHdrBuffer, Pipeline.sampleElapsed,
      areCamerasEqual, numberArraysEqual, clamp, maxReprojectedSamples,
      numUniformSamples, strataCount, previewFramesBeforeBenchmark, camA, idMatrix,
      inpSingle, tileSingle, previewFixture]

/-- C4 (amended): `setSize` reallocates all three buffer pairs with
fresh framebuffers and raises the first-frame flag; the first-frame
short-circuit — store the snapshot, reset the tile schedule and the
sample count, and return without issuing any render — applies on a
subsequent draw only when its camera differs from the stored snapshot;
a draw with an equal camera takes the tile path and leaves the
first-frame flag set. -/
theorem firstFrame_behavior (s : Pipeline) (camera : Camera) (inp : DrawInput)
    (w h : JNum) (hready : s.ready = true) :
    ((s.setSize w h).1.firstFrame = true ∧
     (s.setSize w h).1.hdrBuffer = some s.nextBufferId ∧
     (s.setSize w h).1.hdrBackBuffer = some (s.nextBufferId + 1) ∧
     (s.setSize w h).1.reprojectBuffer = some (s.nextBufferId + 2) ∧
     (s.setSize w h).1.reprojectBackBuffer = some (s.nextBufferId + 3) ∧
     (s.setSize w h).1.gBuffer = some (s.nextBufferId + 4) ∧
     (s.setSize w h).1.gBufferBack = some (s.nextBufferId + 5)) ∧
    (s.firstFrame = true → areCamerasEqual camera s.lastCamera = false →
      (s.draw camera inp).1.lastCamera = camera ∧
      (s.draw camera inp).1.sampleCount = 0 ∧
      (s.draw camera inp).1.firstFrame = false ∧
      Event.tileReset ∈ (s.draw camera inp).2 ∧
      (∀ (target : Buffer) (w2 h2 : JNum) (a : Bool),
        Event.rayTraceDraw target w2 h2 a ∉ (s.draw camera inp).2) ∧
      (∀ (target : Buffer) (b : JNum) (l p : Buffer),
        Event.reprojectDraw target b l p ∉ (s.draw camera inp).2) ∧
      (∀ l : Buffer, Event.toneMapDraw l ∉ (s.draw camera inp).2) ∧
      (∀ target : Buffer, Event.gBufferDraw target ∉ (s.draw camera inp).2)) ∧
    (s.firstFrame = true → areCamerasEqual camera s.lastCamera = true →
      (s.draw camera inp).1.firstFrame = true) := by
  refine ⟨⟨rfl, rfl, rfl, rfl, rfl, rfl, rfl⟩, ?_, ?_⟩
  · intro hfirst hneq
    rw [draw_first_frame s camera inp hready hneq hfirst]
    refine ⟨rfl, rfl, rfl, by simp, ?_, ?_, ?_, ?_⟩
    · intro target w2 h2 a
      simp
    · intro target b l p
      simp
    · intro l
      simp
    · intro target
      simp
  · intro hfirst heq
    rw [draw_static s camera inp hready heq]
    show (s.drawTile inp).1.firstFrame = true
    rw [drawTile_fst]
    have h1 := drawTileFirstPart_fst_cases s inp
    by_cases hl : inp.tile.isLastTile = true
    · by_cases hpos : 0 < blendAmountOf ((s.drawTileFirstPart inp).1.sampleCount + 1)
      · rw [drawTileLastPart_reproject _ inp hl hpos]
        rcases h1 with hc | hc <;> rw [hc] <;> exact hfirst
      · rw [drawTileLastPart_toneonly _ inp hl hpos]
        rcases h1 with hc | hc <;> rw [hc] <;> exact hfirst
    · rw [drawTileLastPart_not_last _ inp (by simpa using hl)]
      rcases h1 with hc | hc <;> rw [hc] <;> exact hfirst

/-- Witness for the amended C4: the very first ready draw stores state
and issues no ray-trace render. -/
theorem firstFrame_behavior_witness :
    (sReady.draw camA inpSingle).1.firstFrame = false ∧
    (∀ (target : Buffer) (w2 h2 : JNum) (a : Bool),
      Event.rayTraceDraw target w2 h2 a ∉ (sReady.draw camA inpSingle).2) := by
  have h := (firstFrame_behavior sReady camA inpSingle 800 600 (by decide)).2.1
    (by decide) (by decide)
  exact ⟨h.2.2.1, h.2.2.2.2.1⟩
